import Mathlib

/-!
Shallow embedding of the Porta-Scope audio scripts.

The embedding covers the parts of the repository the verified properties
talk about:

* `src/wav_plugin/jack_record.py` — `JackAudioSink`: the real-time capture
  callback, the bounded handoff queue (`queue.Queue(maxsize=100)`), the
  background `write_worker` thread and the session lifecycle
  (`start_recording` / `stop_recording`).
* `src/wav_plugin/jack_play.py` — `JackWavPlayer`: the playback callback,
  its read cursor and the end-of-source behaviour.
* `src/wav_plugin/audio_example.py` — `SineWaveGenerator.set_amplitude`.
* `src/wav_plugin/plotter_example.py` — `SineWaveData.generate_multiple_frequencies`.

Python floats are modelled as rationals: the code moves samples around,
compares and clamps them, but the properties proved here involve no
rounding-sensitive arithmetic.  Threads are modelled by explicit state
passing: the capture pipeline as an interleaving trace of callback and
worker events, and the worker loop as a fueled recursion whose fuel counts
loop iterations.  Blocking library calls never appear: every function is
total, which is how the non-blocking contract of the real-time path shows
up in the embedding.
-/

namespace PortaScope

/-- One audio block, as delivered to or produced by a single callback
invocation.  Samples are rationals (the scripts use 32-bit floats, but only
move them, so the carrier does not matter). -/
abbrev Buf := List ℚ

/-- Capacity of the handoff queue: `queue.Queue(maxsize=100)`,
jack_record.py line 33. -/
def queueCapacity : Nat := 100

/-- Mutable state of a `JackAudioSink` (jack_record.py `__init__`,
lines 28-52): the bounded handoff queue, the recording flag, the open
output file (its name when open), the stop event and whether a writer
thread has been started. -/
structure JackAudioSink where
  channels : Nat
  audio_queue : List Buf
  is_recording : Bool
  output_file : Option String
  should_stop : Bool
  write_thread : Bool
deriving DecidableEq

/-- Message printed by the capture callback when the queue is full
(jack_record.py line 81). -/
def queueFullMsg : String := "Warning: Audio buffer full, dropping frames"

/-- `JackAudioSink.process_callback` (jack_record.py lines 62-83).  The
input ports have already been read into `audio_data`; the callback attempts
a non-blocking `put` on the queue.  `put(..., block=False)` raises
`queue.Full` exactly when the queue already holds `queueCapacity` entries,
and the handler only prints a warning.  Returns the new state and the
messages printed (the Python object has no field recording drops). -/
def JackAudioSink.process_callback (s : JackAudioSink) (audio_data : Buf) :
    JackAudioSink × List String :=
  if !s.is_recording then (s, [])
  else if s.audio_queue.length < queueCapacity then
    ({ s with audio_queue := s.audio_queue ++ [audio_data] }, [])
  else
    (s, [queueFullMsg])

/-- Default output filename (jack_record.py lines 122-124). -/
def defaultFilename (timestamp : String) : String :=
  "recording_" ++ timestamp ++ ".wav"

/-- `JackAudioSink.start_recording` (jack_record.py lines 115-158).
`openOk` models whether `sf.SoundFile(filename, mode='w', ...)` succeeds;
when it raises, nothing has been assigned yet and the function prints a
failure and returns `False`.  On success the old queue contents are drained
(lines 140-144), the stop event cleared, the writer thread started and the
recording flag set. -/
def JackAudioSink.start_recording (s : JackAudioSink) (filename : Option String)
    (timestamp : String) (openOk : Bool) : Bool × JackAudioSink :=
  if s.is_recording then (false, s)
  else
    let fname := filename.getD (defaultFilename timestamp)
    if openOk then
      (true, { s with
                output_file := some fname,
                audio_queue := [],
                should_stop := false,
                write_thread := true,
                is_recording := true })
    else
      (false, s)

/-- `JackAudioSink.stop_recording` (jack_record.py lines 160-181), viewed
after the writer thread has been joined: clears the recording flag, sets
the stop event and closes the output file. -/
def JackAudioSink.stop_recording (s : JackAudioSink) : JackAudioSink :=
  if !s.is_recording then s
  else { s with is_recording := false, should_stop := true, output_file := none }

/-! ### Capture pipeline as an interleaving trace

The callback thread and the worker thread interact only through the queue
(spec section 5).  A session is a sequence of atomic events: one capture
callback invocation while recording, or one worker iteration.  The trace
state carries the queue and file contents exactly as the code does, plus
ghost history fields — the buffers delivered to the callback, the buffers
successfully enqueued, and the buffers popped by the worker — which record
what happened but never influence behaviour. -/

/-- Trace state of one capture session.  `queue` and `file` mirror
`audio_queue` and the written file; `captured`, `pushed` and `popped` are
ghost history fields. -/
structure CaptureTrace where
  queue : List Buf
  file : List Buf
  captured : List Buf
  pushed : List Buf
  popped : List Buf
deriving DecidableEq

/-- One atomic event of a capture session. -/
inductive CaptureEvent where
  /-- One invocation of `process_callback` with `is_recording` set,
  delivering buffer `b` (jack_record.py lines 62-83). -/
  | capture (b : Buf)
  /-- One iteration of `write_worker` (jack_record.py lines 185-198): a
  timed `get`, and on success a write of the popped buffer to the open
  output file. -/
  | popWrite
deriving DecidableEq

/-- Semantics of one event.  A `capture` on a non-full queue appends the
buffer (FIFO `put`); on a full queue the buffer is dropped.  A `popWrite`
on a non-empty queue removes the oldest entry (FIFO `get`) and appends it
to the file; on an empty queue `get(timeout=0.1)` raises `queue.Empty` and
the worker retries. -/
def captureStep (s : CaptureTrace) : CaptureEvent → CaptureTrace
  | .capture b =>
    if s.queue.length < queueCapacity then
      { s with
          queue := s.queue ++ [b]
          captured := s.captured ++ [b]
          pushed := s.pushed ++ [b] }
    else
      { s with captured := s.captured ++ [b] }
  | .popWrite =>
    match s.queue with
    | [] => s
    | b :: rest =>
      { s with
          queue := rest
          file := s.file ++ [b]
          popped := s.popped ++ [b] }

/-- Run a capture session trace from a state. -/
def captureRun (s : CaptureTrace) : List CaptureEvent → CaptureTrace
  | [] => s
  | e :: es => captureRun (captureStep s e) es

/-- Initial state of a capture session: `start_recording` drains the queue
and opens a fresh file, so everything is empty. -/
def CaptureTrace.init : CaptureTrace := ⟨[], [], [], [], []⟩

/-! ### Worker loop

`write_worker` (jack_record.py lines 183-198) is a while loop; here it is a
fueled recursion, one fuel unit per loop iteration.  `exited` marks that
the loop terminated (by its condition turning false, or by `break`); it is
never set when the fuel runs out, so an `exited` result is a genuine loop
exit. -/

/-- State seen by the worker loop: the stop event, the queue, the file
contents, whether the output file is open, the recording flag (which the
worker never touches), printed messages, and the exit marker. -/
structure WorkerState where
  should_stop : Bool
  queue : List Buf
  file : List Buf
  fileOpen : Bool
  is_recording : Bool
  log : List String
  exited : Bool
deriving DecidableEq

/-- Message printed when a write raises (jack_record.py line 197). -/
def writeErrorMsg : String := "Error writing audio"

/-- `JackAudioSink.write_worker` (jack_record.py lines 183-198).
`writeFails b` models `self.output_file.write(b)` raising an I/O error
(disk full, permission denied).  The loop runs while the stop event is
unset or the queue is non-empty; each iteration does a timed `get`
(`queue.Empty` just retries), writes the popped buffer when the file
handle is set, and on a write exception prints the error and breaks. -/
def write_worker (writeFails : Buf → Bool) : Nat → WorkerState → WorkerState
  | 0, s => s
  | fuel + 1, s =>
    if s.should_stop && s.queue.isEmpty then
      { s with exited := true }
    else
      match s.queue with
      | [] => write_worker writeFails fuel s
      | b :: rest =>
        if s.fileOpen then
          if writeFails b then
            { s with queue := rest, log := s.log ++ [writeErrorMsg], exited := true }
          else
            write_worker writeFails fuel { s with queue := rest, file := s.file ++ [b] }
        else
          write_worker writeFails fuel { s with queue := rest }

/-! ### Playback: `JackWavPlayer` (src/wav_plugin/jack_play.py) -/

/-- Mutable state of a `JackWavPlayer` (jack_play.py `__init__` and
`load_wav`): the loaded file as a list of frames (each frame one sample
per channel), the channel count (which is also the number of registered
output ports), the read cursor and the playing flag.  The cursor is an
integer, as in Python. -/
structure JackWavPlayer where
  audio_data : List (List ℚ)
  channels : Nat
  position : Int
  playing : Bool
deriving DecidableEq

/-- Contents written to output port `ch` by one callback invocation in the
playing branch (jack_play.py lines 71-91).  When `frames_to_play > 0` the
slice `audio_data[position : position + frames_to_play, ch]` is copied
(ports beyond the channel count would duplicate the last channel; the
player registers exactly `channels` ports, so that branch is dead) and any
remaining frames are zero-filled; otherwise the whole buffer is filled
with silence. -/
def JackWavPlayer.portOutput (p : JackWavPlayer) (frames : Nat)
    (frames_to_play : Int) (ch : Nat) : List ℚ :=
  if 0 < frames_to_play then
    (((p.audio_data.drop p.position.toNat).take frames_to_play.toNat).map
      (fun frame => if ch < p.channels then frame.getD ch 0 else frame.getLastD 0))
      ++ List.replicate (frames - frames_to_play.toNat) 0
  else
    List.replicate frames 0

/-- `JackWavPlayer.process_callback` (jack_play.py lines 58-99).  Returns
the buffers written to the output ports, the new state, and whether this
invocation printed "Playback finished".  When not playing, every port is
zero-filled and nothing else happens.  Otherwise
`frames_to_play = min(frames, len(audio_data) - position)` frames are
copied, the cursor advances by `frames_to_play`, and if it has reached the
end the playing flag is cleared and the finished message printed. -/
def JackWavPlayer.process_callback (p : JackWavPlayer) (frames : Nat) :
    List (List ℚ) × JackWavPlayer × Bool :=
  if !p.playing then
    (List.replicate p.channels (List.replicate frames 0), p, false)
  else
    let len : Int := p.audio_data.length
    let frames_available : Int := len - p.position
    let frames_to_play : Int := min (frames : Int) frames_available
    let outputs := (List.range p.channels).map (p.portOutput frames frames_to_play)
    let newPos := p.position + frames_to_play
    if len ≤ newPos then
      (outputs, { p with position := newPos, playing := false }, true)
    else
      (outputs, { p with position := newPos }, false)

/-- `JackWavPlayer.play` (jack_play.py lines 122-126): reset the cursor and
start playing. -/
def JackWavPlayer.play (p : JackWavPlayer) : JackWavPlayer :=
  { p with position := 0, playing := true }

/-- Run `process_callback` over a list of JACK block sizes.  Returns the
final state, the number of invocations that printed "Playback finished",
and the buffers each invocation wrote to the ports. -/
def JackWavPlayer.runCallbacks (p : JackWavPlayer) :
    List Nat → JackWavPlayer × Nat × List (List (List ℚ))
  | [] => (p, 0, [])
  | f :: fs =>
    let r := p.process_callback f
    let rest := r.2.1.runCallbacks fs
    (rest.1, (if r.2.2 then 1 else 0) + rest.2.1, r.1 :: rest.2.2)

/-! ### `SineWaveGenerator` (src/wav_plugin/audio_example.py) -/

/-- Mutable numeric state of a `SineWaveGenerator` (audio_example.py
`__init__`, lines 7-16). -/
structure SineWaveGenerator where
  frequency : ℚ
  sample_rate : ℚ
  amplitude : ℚ
  is_playing : Bool
  phase : ℚ
deriving DecidableEq

/-- `SineWaveGenerator.set_amplitude` (audio_example.py lines 60-61):
`self.amplitude = max(0, min(1, amplitude))`. -/
def SineWaveGenerator.set_amplitude (g : SineWaveGenerator) (amplitude : ℚ) :
    SineWaveGenerator :=
  { g with amplitude := max 0 (min 1 amplitude) }

/-! ### `SineWaveData` (src/wav_plugin/plotter_example.py)

`np.sin` and `np.pi` are the external numpy primitives; the embedding takes
them as parameters (`np_sin : ℚ → ℚ`, `np_pi : ℚ`), since numpy itself
computes with a finite-precision constant and function. -/

/-- Per-sample-rate state of a `SineWaveData` (plotter_example.py
lines 7-9). -/
structure SineWaveData where
  sample_rate : ℚ
deriving DecidableEq

/-- `SineWaveData.generate` (plotter_example.py lines 11-15):
`amplitude * np.sin(2 * np.pi * frequency * t + phase)` sampled at
`int(sample_rate * duration)` points (`int` truncates; for the
nonnegative products used here that is the floor). -/
def SineWaveData.generate (np_sin : ℚ → ℚ) (np_pi : ℚ) (g : SineWaveData)
    (frequency : ℚ) (amplitude : ℚ) (duration : ℚ) (phase : ℚ) : List ℚ :=
  let num_samples : Nat := (Rat.floor (g.sample_rate * duration)).toNat
  (List.range num_samples).map (fun i =>
    amplitude * np_sin (2 * np_pi * frequency * ((i : ℚ) / g.sample_rate) + phase))

/-- Error raised by `zip(frequencies, None)` in Python: constructing the
zip object type-checks every argument and `None` is not iterable. -/
def zipNoneError : String := "TypeError: zip argument 2 must support iteration"

/-- `SineWaveData.generate_multiple_frequencies` (plotter_example.py
lines 17-26).  The `amplitudes is None` branch assigns the unit-amplitude
list to the misspelled local variable `aplitudes` and leaves `amplitudes`
itself as `None`; the subsequent `zip(frequencies, amplitudes)` then
raises `TypeError`.  With a real amplitude list the generated waves are
summed onto a zero array. -/
def SineWaveData.generate_multiple_frequencies (np_sin : ℚ → ℚ) (np_pi : ℚ)
    (g : SineWaveData) (frequencies : List ℚ) (amplitudes : Option (List ℚ))
    (duration : ℚ) : Except String (List ℚ) :=
  match amplitudes with
  | none =>
    let _aplitudes : List ℚ := List.replicate frequencies.length 1
    Except.error zipNoneError
  | some amps =>
    Except.ok ((frequencies.zip amps).foldl
      (fun result fa =>
        List.zipWith (fun x y => x + y) result
          (g.generate np_sin np_pi fa.1 fa.2 duration 0))
      (List.replicate (Rat.floor (g.sample_rate * duration)).toNat 0))

/-! ### Concrete example states used by witnesses and counterexamples -/

/-- A recording session whose handoff queue is full (100 buffers). -/
def sinkFull : JackAudioSink :=
  { channels := 2
    audio_queue := List.replicate queueCapacity []
    is_recording := true
    output_file := some "rec.wav"
    should_stop := false
    write_thread := true }

/-- A session that is currently recording. -/
def sinkActive : JackAudioSink :=
  { channels := 2
    audio_queue := [[1]]
    is_recording := true
    output_file := some "take1.wav"
    should_stop := false
    write_thread := true }

/-- An idle session with stale buffers left in the queue. -/
def sinkIdle : JackAudioSink :=
  { channels := 2
    audio_queue := [[1], [2]]
    is_recording := false
    output_file := none
    should_stop := true
    write_thread := true }

/-- A running worker (stop not requested) about to write one queued
buffer, with the file open and the session recording. -/
def workerFailEx : WorkerState :=
  { should_stop := false
    queue := [[1]]
    file := []
    fileOpen := true
    is_recording := true
    log := []
    exited := false }

/-- A stopped player over a two-frame mono file, cursor out of place. -/
def playerEx : JackWavPlayer :=
  { audio_data := [[1], [2]], channels := 1, position := 5, playing := false }

/-- A sine generator at its construction defaults. -/
def genEx : SineWaveGenerator :=
  { frequency := 440, sample_rate := 44100, amplitude := 3/10
    is_playing := false, phase := 0 }

/-! ## Theorems -/

/-- Claim C1, counterexample: the claim asserts that a capture-callback push
onto a full queue increments a dropped-frame counter by exactly 1.
`sinkFull` is a recording session whose queue holds `queueCapacity`
buffers; the callback on it returns a state equal to the input state —
every field of the `JackAudioSink` object is unchanged, and the object has
no drop-counter field at all — so nothing is incremented; the only effect
is the printed warning. -/
theorem process_callback_full_queue_counterexample :
    JackAudioSink.process_callback sinkFull [1] = (sinkFull, [queueFullMsg]) := rfl

/-- Claim C1, amended: while recording with the handoff queue full, the
capture callback performs a non-blocking push that fails, drops the
buffer, prints a warning (the code maintains no dropped-frame counter),
and the session continues: the entire state, including the recording
flag, is unchanged and no exception escapes the callback. -/
theorem process_callback_full_queue_drops (s : JackAudioSink) (b : Buf)
    (hrec : s.is_recording = true) (hfull : queueCapacity ≤ s.audio_queue.length) :
    s.process_callback b = (s, [queueFullMsg]) := by
  simp [JackAudioSink.process_callback, hrec, Nat.not_lt.mpr hfull]

/-- Witness for the amended claim C1 at the concrete full session. -/
theorem process_callback_full_queue_drops_witness :
    sinkFull.is_recording = true ∧ queueCapacity ≤ sinkFull.audio_queue.length ∧
    sinkFull.process_callback [2] = (sinkFull, [queueFullMsg]) :=
  ⟨rfl, by decide, process_callback_full_queue_drops sinkFull [2] rfl (by decide)⟩

/-- Claim C7: starting a session that is already recording prints
"Already recording!", returns `False`, and leaves the entire session state
(recording flag, queue contents, output file, worker thread) unchanged. -/
theorem start_recording_when_active_noop (s : JackAudioSink)
    (filename : Option String) (timestamp : String) (openOk : Bool)
    (h : s.is_recording = true) :
    s.start_recording filename timestamp openOk = (false, s) := by
  simp [JackAudioSink.start_recording, h]

/-- Witness for claim C7 at a concrete active session. -/
theorem start_recording_when_active_noop_witness :
    sinkActive.is_recording = true ∧
    sinkActive.start_recording (some "other.wav") "20251012_000000" true =
      (false, sinkActive) :=
  ⟨rfl, start_recording_when_active_noop sinkActive (some "other.wav")
    "20251012_000000" true rfl⟩

/-- Claim C8: a successful start of recording from the idle state leaves
the handoff queue empty of any buffers from a previous session, and
starting playback resets the read cursor to position 0 (and raises the
playing flag). -/
theorem start_resets_queue_and_play_resets_cursor (s : JackAudioSink)
    (filename : Option String) (timestamp : String) (p : JackWavPlayer)
    (h : s.is_recording = false) :
    (s.start_recording filename timestamp true).1 = true ∧
    (s.start_recording filename timestamp true).2.audio_queue = [] ∧
    p.play.position = 0 ∧ p.play.playing = true := by
  simp [JackAudioSink.start_recording, h, JackWavPlayer.play]

/-- Witness for claim C8: restarting `sinkIdle` (whose queue holds stale
buffers) empties the queue, and `play` on `playerEx` (cursor at 5) resets
the cursor. -/
theorem start_resets_queue_and_play_resets_cursor_witness :
    sinkIdle.is_recording = false ∧
    ((sinkIdle.start_recording none "20251012_000000" true).1 = true ∧
     (sinkIdle.start_recording none "20251012_000000" true).2.audio_queue = [] ∧
     playerEx.play.position = 0 ∧ playerEx.play.playing = true) :=
  ⟨rfl, start_resets_queue_and_play_resets_cursor sinkIdle none
    "20251012_000000" playerEx rfl⟩

/-- Claim C9: after `set_amplitude a` the generator's amplitude lies in
the closed interval [0, 1]; it equals `a` when `0 ≤ a ≤ 1`, equals 0 when
`a < 0`, and equals 1 when `a > 1`. -/
theorem set_amplitude_clamps (g : SineWaveGenerator) (a : ℚ) :
    0 ≤ (g.set_amplitude a).amplitude ∧ (g.set_amplitude a).amplitude ≤ 1 ∧
    (0 ≤ a → a ≤ 1 → (g.set_amplitude a).amplitude = a) ∧
    (a < 0 → (g.set_amplitude a).amplitude = 0) ∧
    (1 < a → (g.set_amplitude a).amplitude = 1) := by
  simp only [SineWaveGenerator.set_amplitude]
  refine ⟨le_max_left 0 _, max_le (by norm_num) (min_le_left 1 a), ?_, ?_, ?_⟩
  · intro h0 h1
    rw [min_eq_right h1, max_eq_right h0]
  · intro h
    rw [max_eq_left (le_trans (min_le_right 1 a) (le_of_lt h))]
  · intro h
    rw [min_eq_left (le_of_lt h)]
    norm_num

/-- Witness for claim C9 at the concrete generator and input 2 > 1. -/
theorem set_amplitude_clamps_witness :
    (1:ℚ) < 2 ∧ (genEx.set_amplitude 2).amplitude = 1 :=
  ⟨by norm_num, (set_amplitude_clamps genEx 2).2.2.2.2 (by norm_num)⟩

/-- Claim C10: calling `generate_multiple_frequencies` on a non-empty
frequency list with the amplitudes argument left as its default `None`
raises an exception rather than using unit amplitudes: the default branch
assigns the misspelled local `aplitudes`, and `zip` then iterates the
still-`None` amplitudes, raising `TypeError`. -/
theorem generate_multiple_frequencies_none_raises (np_sin : ℚ → ℚ) (np_pi : ℚ)
    (g : SineWaveData) (frequencies : List ℚ) (duration : ℚ)
    (_h : frequencies ≠ []) :
    g.generate_multiple_frequencies np_sin np_pi frequencies none duration =
      Except.error zipNoneError := rfl

/-- Witness for claim C10 at a concrete one-element frequency list. -/
theorem generate_multiple_frequencies_none_raises_witness :
    ([(440:ℚ)] ≠ []) ∧
    (SineWaveData.mk 1000).generate_multiple_frequencies (fun x => x)
      (314159/100000) [440] none 1 = Except.error zipNoneError :=
  ⟨by simp, generate_multiple_frequencies_none_raises (fun x => x)
    (314159/100000) (SineWaveData.mk 1000) [440] 1 (by simp)⟩

/-- Preservation: one capture-session event keeps the pipeline invariant —
the file equals the popped sequence, the popped sequence followed by the
queue contents is exactly the pushed sequence, and the pushed sequence is
an order-preserving subsequence of the captured sequence. -/
theorem captureStep_inv (s : CaptureTrace) (e : CaptureEvent)
    (h1 : s.file = s.popped) (h2 : s.popped ++ s.queue = s.pushed)
    (h3 : s.pushed.Sublist s.captured) :
    (captureStep s e).file = (captureStep s e).popped ∧
    (captureStep s e).popped ++ (captureStep s e).queue = (captureStep s e).pushed ∧
    ((captureStep s e).pushed).Sublist (captureStep s e).captured := by
  cases e with
  | capture b =>
    by_cases hq : s.queue.length < queueCapacity
    · simp only [captureStep, if_pos hq]
      exact ⟨h1, by rw [← List.append_assoc, h2],
        h3.append (List.Sublist.refl [b])⟩
    · simp only [captureStep, if_neg hq]
      exact ⟨h1, h2, h3.trans (List.sublist_append_left s.captured [b])⟩
  | popWrite =>
    cases hq : s.queue with
    | nil =>
      simp only [captureStep, hq]
      refine ⟨h1, ?_, h3⟩
      rw [← h2, hq, List.append_nil]
    | cons b rest =>
      simp only [captureStep, hq]
      refine ⟨by rw [h1], ?_, h3⟩
      rw [List.append_assoc, List.singleton_append, ← hq, h2]

/-- The pipeline invariant holds after running any event trace from a
state satisfying it. -/
theorem captureRun_inv (es : List CaptureEvent) :
    ∀ s : CaptureTrace, s.file = s.popped → s.popped ++ s.queue = s.pushed →
      s.pushed.Sublist s.captured →
      (captureRun s es).file = (captureRun s es).popped ∧
      (captureRun s es).popped ++ (captureRun s es).queue = (captureRun s es).pushed ∧
      ((captureRun s es).pushed).Sublist (captureRun s es).captured := by
  induction es with
  | nil => exact fun s h1 h2 h3 => ⟨h1, h2, h3⟩
  | cons e es ih =>
    intro s h1 h2 h3
    obtain ⟨g1, g2, g3⟩ := captureStep_inv s e h1 h2 h3
    exact ih (captureStep s e) g1 g2 g3

/-- Claim C2: FIFO preservation for every capture session.  Over any
interleaving of capture-callback and worker events, the file contents
equal the popped sequence (every popped buffer is written exactly once,
in pop order); the popped sequence followed by the current queue is
exactly the pushed sequence (pops happen in push order — no duplication,
no reordering); and the pushed sequence is an order-preserving
subsequence of the captured sequence — so buffers reach the output file
in the exact order they were captured. -/
theorem capture_fifo_preserved (es : List CaptureEvent) :
    (captureRun CaptureTrace.init es).file = (captureRun CaptureTrace.init es).popped ∧
    (captureRun CaptureTrace.init es).popped ++ (captureRun CaptureTrace.init es).queue =
      (captureRun CaptureTrace.init es).pushed ∧
    ((captureRun CaptureTrace.init es).pushed).Sublist
      (captureRun CaptureTrace.init es).captured :=
  captureRun_inv es CaptureTrace.init rfl rfl (List.Sublist.refl [])

/-- Claim C4: on a clean stop (stop event set, recording flag already
cleared by `stop_recording`, no write failure), the worker loop keeps
running until the stop signal is observed with an empty queue: every
buffer still queued at stop time is appended to the file, in order, and
only then does the loop exit.  One fuel unit is one loop iteration;
`q.length + 1` iterations suffice. -/
theorem write_worker_drains_on_clean_stop (writeFails : Buf → Bool) :
    ∀ (q file0 : List Buf) (log0 : List String) (recFlag : Bool),
      (∀ b ∈ q, writeFails b = false) →
      write_worker writeFails (q.length + 1)
        ⟨true, q, file0, true, recFlag, log0, false⟩ =
        ⟨true, [], file0 ++ q, true, recFlag, log0, true⟩ := by
  intro q
  induction q with
  | nil =>
    intro file0 log0 recFlag _
    simp [write_worker]
  | cons b rest ih =>
    intro file0 log0 recFlag hok
    have hb : writeFails b = false := hok b (List.mem_cons_self b rest)
    have hrest : ∀ x ∈ rest, writeFails x = false :=
      fun x hx => hok x (List.mem_cons_of_mem b hx)
    have step : write_worker writeFails ((b :: rest).length + 1)
        ⟨true, b :: rest, file0, true, recFlag, log0, false⟩ =
        write_worker writeFails (rest.length + 1)
          ⟨true, rest, file0 ++ [b], true, recFlag, log0, false⟩ := by
      simp [write_worker, hb]
    rw [step, ih (file0 ++ [b]) log0 recFlag hrest, List.append_assoc,
      List.singleton_append]

/-- Witness for claim C4: a stopped worker with two queued buffers drains
both into the file and exits. -/
theorem write_worker_drains_on_clean_stop_witness :
    (∀ b ∈ [[(1:ℚ)], [2]], (fun _ : Buf => false) b = false) ∧
    write_worker (fun _ => false) 3
      ⟨true, [[(1:ℚ)], [2]], [[0]], true, false, [], false⟩ =
      ⟨true, [], [[0]] ++ [[(1:ℚ)], [2]], true, false, [], true⟩ :=
  ⟨fun _ _ => rfl, write_worker_drains_on_clean_stop (fun _ => false)
    [[1], [2]] [[0]] [] false (fun _ _ => rfl)⟩

/-- Claim C5, counterexample: the claim asserts that an I/O failure while
writing closes the output file handle and returns the session to Idle
(recording flag cleared).  In `workerFailEx` the one queued write raises;
the worker does exit its loop and print the error, but the file remains
open and the recording flag remains set — cleanup happens only in a later
`stop_recording` call — contradicting the claim. -/
theorem write_error_cleanup_counterexample :
    (write_worker (fun _ => true) 3 workerFailEx).exited = true ∧
    (write_worker (fun _ => true) 3 workerFailEx).is_recording = true ∧
    (write_worker (fun _ => true) 3 workerFailEx).fileOpen = true ∧
    (write_worker (fun _ => true) 3 workerFailEx).log = [writeErrorMsg] :=
  ⟨rfl, rfl, rfl, rfl⟩

/-- Claim C5, amended: an I/O failure while the worker writes a buffer is
fatal to the worker loop only — the worker prints the error message and
breaks out of its loop, with the popped buffer lost; the output file
handle stays open, the recording flag stays set, and nothing is returned
to the caller until `stop_recording` is invoked separately. -/
theorem write_worker_error_breaks (writeFails : Buf → Bool) (fuel : Nat)
    (s : WorkerState) (b : Buf) (rest : List Buf)
    (hq : s.queue = b :: rest) (hopen : s.fileOpen = true)
    (hfail : writeFails b = true) :
    write_worker writeFails (fuel + 1) s =
      { s with queue := rest, log := s.log ++ [writeErrorMsg], exited := true } := by
  simp [write_worker, hq, hopen, hfail]

/-- Witness for the amended claim C5 at the concrete failing worker. -/
theorem write_worker_error_breaks_witness :
    workerFailEx.queue = [[(1:ℚ)]] ∧ workerFailEx.fileOpen = true ∧
    (fun _ : Buf => true) [(1:ℚ)] = true ∧
    write_worker (fun _ => true) 1 workerFailEx =
      { workerFailEx with
          queue := []
          log := workerFailEx.log ++ [writeErrorMsg]
          exited := true } :=
  ⟨rfl, rfl, rfl,
    write_worker_error_breaks (fun _ => true) 0 workerFailEx [1] [] rfl rfl rfl⟩

/-- A player that is not playing passes every callback through the
silence branch: the state is untouched, nothing is reported finished, and
every requested buffer comes back as a full block of zeros on every
port. -/
theorem runCallbacks_not_playing (p : JackWavPlayer) (h : p.playing = false) :
    ∀ gs : List Nat, p.runCallbacks gs =
      (p, 0, gs.map fun g => List.replicate p.channels (List.replicate g 0)) := by
  intro gs
  induction gs with
  | nil => simp [JackWavPlayer.runCallbacks]
  | cons g gs ih =>
    simp [JackWavPlayer.runCallbacks, JackWavPlayer.process_callback, h, ih]

/-- Step characterization, finishing case: a playing callback whose
cursor advance reaches the end of the source clears the playing flag and
prints "Playback finished". -/
theorem process_callback_finish (p : JackWavPlayer) (f : Nat)
    (h : p.playing = true)
    (hfin : (p.audio_data.length : Int) ≤
      p.position + min (f : Int) ((p.audio_data.length : Int) - p.position)) :
    (p.process_callback f).2.1 =
      { p with
          position := p.position +
            min (f : Int) ((p.audio_data.length : Int) - p.position)
          playing := false } ∧
    (p.process_callback f).2.2 = true := by
  simp [JackWavPlayer.process_callback, h, hfin]

/-- Step characterization, continuing case: a playing callback that does
not reach the end of the source only advances the cursor. -/
theorem process_callback_continue (p : JackWavPlayer) (f : Nat)
    (h : p.playing = true)
    (hcont : ¬ (p.audio_data.length : Int) ≤
      p.position + min (f : Int) ((p.audio_data.length : Int) - p.position)) :
    (p.process_callback f).2.1 =
      { p with
          position := p.position +
            min (f : Int) ((p.audio_data.length : Int) - p.position) } ∧
    (p.process_callback f).2.2 = false := by
  simp [JackWavPlayer.process_callback, h, hcont]

/-- Main end-of-source induction: a playing session whose cursor is in
bounds, run over a non-empty block list whose total covers the rest of the
source, prints "Playback finished" exactly once, ends with the playing
flag cleared and the cursor exactly at the end, and never touches the
loaded data or the port count. -/
theorem runCallbacks_reaches_eos :
    ∀ (fs : List Nat) (p : JackWavPlayer), p.playing = true →
      0 ≤ p.position → p.position ≤ (p.audio_data.length : Int) →
      (p.audio_data.length : Int) ≤ p.position + (fs.sum : Int) → fs ≠ [] →
      (p.runCallbacks fs).2.1 = 1 ∧
      (p.runCallbacks fs).1.playing = false ∧
      (p.runCallbacks fs).1.position = (p.audio_data.length : Int) ∧
      (p.runCallbacks fs).1.audio_data = p.audio_data ∧
      (p.runCallbacks fs).1.channels = p.channels := by
  intro fs
  induction fs with
  | nil => intro p _ _ _ _ hne; exact absurd rfl hne
  | cons f fs ih =>
    intro p hplay h0 hle hsum _
    have hcast : (((f :: fs).sum : Nat) : Int) = (f : Int) + (fs.sum : Int) := by
      push_cast [List.sum_cons]
      ring
    rw [hcast] at hsum
    rcases le_or_lt ((p.audio_data.length : Int)) (p.position + (f : Int)) with hA | hB
    · -- this callback reaches the end of the source
      have hmin : min (f : Int) ((p.audio_data.length : Int) - p.position) =
          (p.audio_data.length : Int) - p.position := min_eq_right (by omega)
      obtain ⟨hs, hf⟩ := process_callback_finish p f hplay (by rw [hmin]; omega)
      rw [hmin] at hs
      have hrest := runCallbacks_not_playing
        ({ p with position := p.position + ((p.audio_data.length : Int) - p.position)
                  playing := false }) rfl fs
      simp only [JackWavPlayer.runCallbacks, hs, hf, hrest]
      refine ⟨by trivial, by trivial, by omega, by trivial, by trivial⟩
    · -- the whole block fits strictly before the end
      have hmin : min (f : Int) ((p.audio_data.length : Int) - p.position) =
          (f : Int) := min_eq_left (by omega)
      obtain ⟨hs, hf⟩ := process_callback_continue p f hplay (by rw [hmin]; omega)
      rw [hmin] at hs
      have hne : fs ≠ [] := by
        intro hfs
        subst hfs
        simp only [List.sum_nil, Nat.cast_zero, add_zero] at hsum
        omega
      obtain ⟨ic, ipl, ipos, idata, ich⟩ :=
        ih { p with position := p.position + (f : Int) } hplay
          (show (0:Int) ≤ p.position + (f : Int) by omega)
          (show p.position + (f : Int) ≤ (p.audio_data.length : Int) by omega)
          (show (p.audio_data.length : Int) ≤
            p.position + (f : Int) + (fs.sum : Int) by omega)
          hne
      simp only [JackWavPlayer.runCallbacks, hs, hf]
      exact ⟨by simpa using ic, ipl, ipos, idata, ich⟩

/-- Claim C3: for a playback session over a source shorter than the
requested duration (block sizes `fs`, total at least the source length),
"Playback finished" is printed exactly once during `fs`; and every further
callback (`gs`, the `k` requests past end-of-source) reports no finish and
fills its whole output buffer on every port with zeros — `k` full-length
silence buffers for `k` requests, never an error and never a short
read. -/
theorem playback_past_eos_silence (p : JackWavPlayer) (fs gs : List Nat)
    (hne : fs ≠ []) (hsum : (p.audio_data.length : Int) ≤ (fs.sum : Int)) :
    ((p.play).runCallbacks fs).2.1 = 1 ∧
    (((p.play).runCallbacks fs).1.runCallbacks gs).2.1 = 0 ∧
    (((p.play).runCallbacks fs).1.runCallbacks gs).2.2 =
      gs.map (fun g => List.replicate p.channels (List.replicate g (0:ℚ))) := by
  obtain ⟨hc, hpl, _, _, hch⟩ :=
    runCallbacks_reaches_eos fs p.play rfl (le_refl 0) (Int.natCast_nonneg _)
      (by simpa [JackWavPlayer.play] using hsum) hne
  have hrest := runCallbacks_not_playing _ hpl gs
  refine ⟨hc, ?_, ?_⟩
  · rw [hrest]
  · rw [hrest]
    simp only [hch]
    rfl

/-- Witness for claim C3: the two-frame mono file of `playerEx`, played
with one callback of 3 frames, finishes exactly once; two further
callbacks of 2 and 1 frames yield two full silence buffers. -/
theorem playback_past_eos_silence_witness :
    ([3] : List Nat) ≠ [] ∧
    ((playerEx.audio_data.length : Int) ≤ (([3] : List Nat).sum : Int)) ∧
    (((playerEx.play).runCallbacks [3]).2.1 = 1 ∧
     (((playerEx.play).runCallbacks [3]).1.runCallbacks [2, 1]).2.1 = 0 ∧
     (((playerEx.play).runCallbacks [3]).1.runCallbacks [2, 1]).2.2 =
       [2, 1].map (fun g => List.replicate playerEx.channels
         (List.replicate g (0:ℚ)))) :=
  ⟨by decide, by decide,
    playback_past_eos_silence playerEx [3] [2, 1] (by decide) (by decide)⟩

/-- Cursor-bound induction: from any in-bounds cursor, every run of
callbacks keeps the cursor within `[0, len(audio_data)]` and never
modifies the loaded data. -/
theorem runCallbacks_position_bounds :
    ∀ (fs : List Nat) (p : JackWavPlayer), 0 ≤ p.position →
      p.position ≤ (p.audio_data.length : Int) →
      0 ≤ (p.runCallbacks fs).1.position ∧
      (p.runCallbacks fs).1.position ≤ (p.audio_data.length : Int) ∧
      (p.runCallbacks fs).1.audio_data = p.audio_data := by
  intro fs
  induction fs with
  | nil => exact fun p h0 h1 => ⟨h0, h1, rfl⟩
  | cons f fs ih =>
    intro p h0 h1
    by_cases hplay : p.playing = true
    · have hmin0 : 0 ≤ min (f : Int) ((p.audio_data.length : Int) - p.position) :=
        le_min (Int.natCast_nonneg f) (by omega)
      have hmin1 : min (f : Int) ((p.audio_data.length : Int) - p.position) ≤
          (p.audio_data.length : Int) - p.position := min_le_right _ _
      by_cases hfin : (p.audio_data.length : Int) ≤
          p.position + min (f : Int) ((p.audio_data.length : Int) - p.position)
      · obtain ⟨hs, _⟩ := process_callback_finish p f hplay hfin
        obtain ⟨g0, g1, g2⟩ := ih
          { p with
              position := p.position +
                min (f : Int) ((p.audio_data.length : Int) - p.position)
              playing := false }
          (show (0:Int) ≤ p.position +
            min (f : Int) ((p.audio_data.length : Int) - p.position) by omega)
          (show p.position + min (f : Int) ((p.audio_data.length : Int) - p.position)
            ≤ (p.audio_data.length : Int) by omega)
        simp only [JackWavPlayer.runCallbacks, hs]
        exact ⟨g0, g1, g2⟩
      · obtain ⟨hs, _⟩ := process_callback_continue p f hplay hfin
        obtain ⟨g0, g1, g2⟩ := ih
          { p with
              position := p.position +
                min (f : Int) ((p.audio_data.length : Int) - p.position) }
          (show (0:Int) ≤ p.position +
            min (f : Int) ((p.audio_data.length : Int) - p.position) by omega)
          (show p.position + min (f : Int) ((p.audio_data.length : Int) - p.position)
            ≤ (p.audio_data.length : Int) by omega)
        simp only [JackWavPlayer.runCallbacks, hs]
        exact ⟨g0, g1, g2⟩
    · have hp : p.playing = false := by
        cases hpp : p.playing
        · rfl
        · exact absurd hpp hplay
      have hs : (p.process_callback f).2.1 = p := by
        simp [JackWavPlayer.process_callback, hp]
      simp only [JackWavPlayer.runCallbacks, hs]
      exact ih p h0 h1

/-- Claim C6: for every playback session (started by `play`) and every
sequence of callback invocations, the read cursor stays within the
backing source: `0 ≤ position ≤ len(audio_data)` after each callback,
the backing data itself never changing. -/
theorem playback_cursor_in_bounds (p : JackWavPlayer) (fs : List Nat) :
    0 ≤ ((p.play).runCallbacks fs).1.position ∧
    ((p.play).runCallbacks fs).1.position ≤
      (((p.play).runCallbacks fs).1.audio_data.length : Int) ∧
    ((p.play).runCallbacks fs).1.audio_data = p.audio_data := by
  obtain ⟨h0, h1, h2⟩ :=
    runCallbacks_position_bounds fs p.play (le_refl 0) (Int.natCast_nonneg _)
  refine ⟨h0, ?_, h2⟩
  rw [h2]
  exact h1

end PortaScope
